import Mathlib

/-!
Verification development for a multi-agent customer-service system
(router/orchestrator agent, customer-data agent, support agent, MCP tool
server).  The Python sources are shallowly embedded: JSON documents become
the inductive `JVal`, Python dictionaries become association lists,
Python exceptions become `Except String`, and every external effect
(HTTP transport, the LLM oracle, the MCP tool host, fresh UUIDs, clock)
becomes an explicit oracle parameter.  Python truthiness is modelled by
`JVal.truthy`.
-/

/-- JSON-like values exchanged between the agents (Python dict / list /
scalar documents).  Objects keep insertion order, like Python dicts. -/
inductive JVal where
  | null
  | bool (b : Bool)
  | num (n : Int)
  | str (s : String)
  | arr (xs : List JVal)
  | obj (fields : List (String × JVal))

/-- Python truthiness of a JSON value (`bool(v)`): `None`, `False`, `0`,
`""`, `[]`, `{}` are falsy, everything else truthy. -/
def JVal.truthy : JVal → Bool
  | .null => false
  | .bool b => b
  | .num n => n != 0
  | .str s => s != ""
  | .arr xs => !xs.isEmpty
  | .obj fs => !fs.isEmpty

/-- Key lookup in an ordered association list (Python dict access). -/
def jlookup : List (String × JVal) → String → Option JVal
  | [], _ => none
  | (k, v) :: rest, key => if k = key then some v else jlookup rest key

/-- Python `a or b` on JSON values: `a` if truthy, else `b`. -/
def pyOr (a b : JVal) : JVal := if a.truthy then a else b

/-- Python `container.get(key, default)`: defined on dicts, raises
`AttributeError` on any other value. -/
def pyGet (v : JVal) (k : String) (d : JVal) : Except String JVal :=
  match v with
  | .obj fs => .ok ((jlookup fs k).getD d)
  | _ => .error ("AttributeError: " ++ k)

/-- Python `container[key]` indexing for string keys: dict lookup that
raises `KeyError` when the key is absent and `TypeError` on non-dicts. -/
def pyIndex (v : JVal) (k : String) : Except String JVal :=
  match v with
  | .obj fs =>
    match jlookup fs k with
    | some x => .ok x
    | none => .error ("KeyError: " ++ k)
  | _ => .error ("TypeError: not subscriptable: " ++ k)

/-- Substring test on character lists (Python `needle in haystack` for
strings). -/
def containsSub (needle : List Char) : List Char → Bool
  | [] => needle.isEmpty
  | c :: rest => needle.isPrefixOf (c :: rest) || containsSub needle rest

/-- Python `key in container` for a string key: key membership on dicts,
element membership on lists, substring test on strings, `TypeError`
otherwise. -/
def pyContains (container : JVal) (key : String) : Except String Bool :=
  match container with
  | .obj fs => .ok ((jlookup fs key).isSome)
  | .arr xs => .ok (xs.any (fun x => match x with | .str s => s == key | _ => false))
  | .str s => .ok (containsSub key.data s.data)
  | _ => .error ("TypeError: argument not iterable")

/-- Coerce to a string, raising (as Python string methods do) on
non-string values. -/
def expectStr (v : JVal) : Except String String :=
  match v with
  | .str s => .ok s
  | _ => .error ("AttributeError: not a str")

/-- Python `str(v)`.  Scalar values are rendered faithfully; container
renderings are abbreviated (no modelled code path inspects the rendering
of a container). -/
def pyStr : JVal → String
  | .null => "None"
  | .bool true => "True"
  | .bool false => "False"
  | .num n => toString n
  | .str s => s
  | .arr _ => "[...]"
  | .obj _ => "\x7b...\x7d"

/-- Python `s.lower()` (ASCII case folding), implemented over the
character list so that it evaluates by kernel reduction. -/
def strLower (s : String) : String := String.mk (s.data.map Char.toLower)

/-- Python `s.strip()`: remove leading and trailing whitespace,
implemented over the character list. -/
def strTrim (s : String) : String :=
  String.mk (((s.data.dropWhile Char.isWhitespace).reverse.dropWhile Char.isWhitespace).reverse)

/-- Python repr of a list of strings, for example a list of from and to (used in the
schema-validation error message). -/
def pyReprList (xs : List String) : String :=
  "[" ++ String.intercalate (", ") (xs.map (fun s => "\x27" ++ s ++ "\x27")) ++ "]"

/-- Python `d[k] = v` on an ordered dict: overwrite in place when the key
exists, else append. -/
def setKey (fs : List (String × JVal)) (k : String) (v : JVal) : List (String × JVal) :=
  if (jlookup fs k).isSome then fs.map (fun p => if p.1 = k then (k, v) else p)
  else fs ++ [(k, v)]

/-- From `agents/agent_client.py`, `create_a2a_message` (lines 27-38):
constructs a compliant A2A message.  The two freshly generated UUIDs and
the timestamp are explicit arguments (the source draws them from
`uuid.uuid4()` / `datetime.utcnow()`).  Python defaults
`msg_type="request"`, `corr_id=None` are supplied explicitly by callers
in this embedding.  Note that the source lines `content if content else {}` and
`corr_id or str(uuid.uuid4())` are Python truthiness tests. -/
def create_a2a_message (sender_id recipient_id intent content msg_type corr_id : JVal)
    (fresh_message_id fresh_corr_id timestamp : String) : JVal :=
  JVal.obj [
    ("message_id", JVal.str fresh_message_id),
    ("from", sender_id),
    ("to", recipient_id),
    ("type", msg_type),
    ("intent", intent),
    ("payload", if content.truthy then content else JVal.obj []),
    ("correlation_id", if corr_id.truthy then corr_id else JVal.str fresh_corr_id),
    ("timestamp", JVal.str timestamp)
  ]

/-- The required envelope fields, from `check_message_schema`
(`agents/agent_client.py` line 41). -/
def requiredFields : List String :=
  ["message_id", "from", "to", "type", "intent", "payload", "correlation_id"]

/-- Helper for `missingFields`: the Python list comprehension
`[f for f in required if f not in message]`. -/
def missingAux (message : JVal) : List String → Except String (List String)
  | [] => .ok []
  | f :: rest => do
    let b ← pyContains message f
    let tail ← missingAux message rest
    pure (if b then tail else f :: tail)

/-- The list of required fields absent from `message`
(`agents/agent_client.py` line 42). -/
def missingFields (message : JVal) : Except String (List String) :=
  missingAux message requiredFields

/-- From `agents/agent_client.py`, `check_message_schema` (lines 40-45):
returns `True`, or raises `ValueError` naming every missing required
field. -/
def check_message_schema (message : JVal) : Except String Bool := do
  let missing ← missingFields message
  if missing.isEmpty then pure true
  else .error ("Invalid A2A Message. Missing: " ++ pyReprList missing)

/-- From `agents/agent_client.py`, `generate_error_response` (lines
47-55): mirror an envelope into a `type=error` reply.  `orig_message.get`
raises on non-dict input, hence the `Except`. -/
def generate_error_response (orig_message : JVal) (error_text : String)
    (fresh_message_id fresh_corr_id timestamp : String) : Except String JVal := do
  let t ← pyGet orig_message ("to") (JVal.str "unknown")
  let f ← pyGet orig_message ("from") (JVal.str "unknown")
  let i ← pyGet orig_message ("intent") (JVal.str "error")
  let c ← pyGet orig_message ("correlation_id") JVal.null
  pure (create_a2a_message t f i (JVal.obj [("error", JVal.str error_text)])
        (JVal.str "error") c fresh_message_id fresh_corr_id timestamp)

/-- Field access on an envelope object (helper for stating theorems). -/
def envField (e : JVal) (k : String) : Option JVal :=
  match e with
  | .obj fs => jlookup fs k
  | _ => none

/-- The `{"status": "error", "error": msg}` dict the connector and agents
synthesize for failures. -/
def errorDict (msg : String) : JVal :=
  JVal.obj [("status", JVal.str "error"), ("error", JVal.str msg)]

/-- Outcome of one HTTP POST performed by the connector: a response with
a status code, raw text and (for 200-responses) the result of decoding
the body as JSON (`none` = decode failure), or a raised network
exception. -/
inductive HttpOutcome where
  | resp (status_code : Nat) (text : String) (jsonBody : Option JVal)
  | exn (msg : String)

/-- From `agents/agent_client.py`, `AgentConnector.send_message` (lines
68-82): validate the outgoing envelope, POST it, return the decoded body
on HTTP 200, and convert every other outcome (non-200 status, network
exception, schema failure, body-decode failure) into a synthetic
`status=error` dict — the function never raises.  The network call is the
oracle argument `outcome`. -/
def send_message (message : JVal) (outcome : HttpOutcome) : JVal :=
  match check_message_schema message with
  | .error e => errorDict e
  | .ok _ =>
    match outcome with
    | .exn m => errorDict m
    | .resp code text body =>
      if code = 200 then
        match body with
        | some b => b
        | none => errorDict ("JSONDecodeError: response body is not JSON")
      else errorDict ("HTTP " ++ toString code ++ ": " ++ text)

/-- From `agents/llm_service.py`, `clean_json_text` (lines 15-21), second
tier: the first `{` through the last `}` (the regex `\x7b.*\x7d` with
DOTALL), stripped; falls back to the whole text stripped. -/
def clean_json_brace (text : String) : String :=
  let cs := text.data
  let pre := cs.dropWhile (fun c => c ≠ '{')
  let span := (pre.reverse.dropWhile (fun c => c ≠ '}')).reverse
  if span.isEmpty then strTrim text else strTrim (String.mk span)

/-- Drop everything up to and including the first occurrence of `needle`;
`none` when `needle` does not occur. -/
def dropUntilSub (needle : List Char) : List Char → Option (List Char)
  | [] => if needle.isEmpty then some [] else none
  | c :: rest =>
    if needle.isPrefixOf (c :: rest) then some ((c :: rest).drop needle.length)
    else dropUntilSub needle rest

/-- The prefix strictly before the first occurrence of `needle`; `none`
when `needle` does not occur. -/
def takeUntilSub (needle : List Char) : List Char → Option (List Char)
  | [] => if needle.isEmpty then some [] else none
  | c :: rest =>
    if needle.isPrefixOf (c :: rest) then some []
    else (takeUntilSub needle rest).map (fun l => c :: l)

/-- From `agents/llm_service.py`, `clean_json_text` (lines 15-21):
extract JSON from oracle output — first a fenced `json` code block
(content between the fence markers, stripped), then the first-`{` to
last-`}` span, then the raw trimmed text. -/
def clean_json_text (text : String) : String :=
  match dropUntilSub ("```json".data) text.data with
  | some after =>
    match takeUntilSub ("```".data) after with
    | some inner => strTrim (String.mk inner)
    | none => clean_json_brace text
  | none => clean_json_brace text

/-- Outcome of one oracle HTTP attempt inside `query_llm`: an HTTP
response (status code, raw text, decoded JSON body — `none` when the
body fails to decode, which `requests` raises as a `RequestException`
subclass), or a raised `RequestException`. -/
inductive LLMAttempt where
  | resp (status_code : Nat) (text : String) (jsonBody : Option JVal)
  | exn (msg : String)

/-- Control-flow result of one iteration of the attempt loop of `query_llm`:
continue to the next attempt, or return a final value. -/
inductive AttemptStep where
  | retry
  | done (result : Option JVal)

/-- One iteration of the attempt loop of `agents/llm_service.py`,
`query_llm` (lines 44-77).  `jloads` is the `json.loads` oracle (`none`
= parse failure).  A 503 status or a caught `RequestException`
(including a body-decode failure) continues the loop; any other non-200
status returns `None`; on 200, the `choices` shape guard either yields
the message content or returns `None`; content extraction on a malformed
`choices` entry raises (`KeyError`/`TypeError` are not caught by the
`except requests.exceptions.RequestException` clause). -/
def query_llm_attempt (json_mode : Bool) (jloads : String → Option JVal)
    (a : LLMAttempt) : Except String AttemptStep :=
  match a with
  | .exn _ => .ok .retry
  | .resp code _ body =>
    if code = 503 then .ok .retry
    else if code ≠ 200 then .ok (.done none)
    else
      match body with
      | none => .ok .retry
      | some result =>
        match result with
        | .obj fs =>
          match jlookup fs ("choices") with
          | some (.arr (c0 :: _)) =>
            match c0 with
            | .obj cf =>
              match jlookup cf ("message") with
              | some (.obj mf) =>
                match jlookup mf ("content") with
                | some (.str content) =>
                  if json_mode then
                    match jloads (clean_json_text content) with
                    | some v => .ok (.done (some v))
                    | none => .ok (.done none)
                  else .ok (.done (some (JVal.str (strTrim content))))
                | some _ => .error ("TypeError: content is not a str")
                | none => .error ("KeyError: content")
              | some _ => .error ("TypeError: message is not subscriptable")
              | none => .error ("KeyError: message")
            | _ => .error ("TypeError: choice is not subscriptable")
          | some (.arr []) => .ok (.done none)
          | some _ => .error ("TypeError: choices has no len or items")
          | none => .ok (.done none)
        | .arr xs =>
          if xs.any (fun x => match x with | .str s => s == "choices" | _ => false) then
            .error ("TypeError: list indices must be integers")
          else .ok (.done none)
        | .str s =>
          if containsSub ("choices".data) s.data then
            .error ("TypeError: string indices must be integers")
          else .ok (.done none)
        | _ => .error ("TypeError: argument not iterable")

/-- Process a single (final) attempt: the value the loop returns when it
is the last iteration (falling off the loop returns `None`). -/
def query_llm_single (json_mode : Bool) (jloads : String → Option JVal)
    (a : LLMAttempt) : Except String (Option JVal) := do
  match ← query_llm_attempt json_mode jloads a with
  | .done r => pure r
  | .retry => pure none

/-- From `agents/llm_service.py`, `query_llm` (lines 44-77): the
`for attempt in range(2)` loop — at most two oracle attempts, whose
outcomes are the oracle arguments `a0`, `a1`; returning `None` when both
attempts are spent.  `Except.error` models an uncaught Python
exception. -/
def query_llm (json_mode : Bool) (jloads : String → Option JVal)
    (a0 a1 : LLMAttempt) : Except String (Option JVal) := do
  match ← query_llm_attempt json_mode jloads a0 with
  | .done r => pure r
  | .retry => query_llm_single json_mode jloads a1

/-- Characters matched by the character class of the email pattern
`[\w\.-]+@[\w\.-]+` in `build_agent_task` (`agents/router_agent.py` line
140): word characters (ASCII letters, digits, underscore), dot, hyphen. -/
def isWordChar (c : Char) : Bool := c.isAlphanum || c = '_' || c = '.' || c = '-'

/-- Dropping a prefix never lengthens a list (termination helper). -/
theorem dropWhile_length_le {α : Type} (p : α → Bool) (l : List α) :
    (l.dropWhile p).length ≤ l.length := by
  induction l with
  | nil => simp [List.dropWhile]
  | cons a l ih =>
    by_cases h : p a
    · simp [List.dropWhile, h]
      exact Nat.le_succ_of_le ih
    · simp [List.dropWhile, h]

/-- Leftmost match of the pattern `[\w\.-]+@[\w\.-]+` (Python
`re.search`): the first maximal run of word-class characters that is
immediately followed by `@` and at least one more word-class character;
both runs are taken greedily. -/
def findEmail : List Char → Option (List Char)
  | [] => none
  | c :: rest =>
    if isWordChar c then
      match rest.dropWhile isWordChar with
      | '@' :: a1 :: rest2 =>
        if isWordChar a1 then
          some ((c :: rest.takeWhile isWordChar) ++ '@' :: a1 :: rest2.takeWhile isWordChar)
        else findEmail (rest.dropWhile isWordChar)
      | _ => findEmail (rest.dropWhile isWordChar)
    else findEmail rest
termination_by cs => cs.length
decreasing_by
  all_goals simp only [List.length_cons]
  all_goals first
    | exact Nat.lt_succ_self _
    | exact Nat.lt_succ_of_le (dropWhile_length_le _ _)

/-- Python re.search of the email pattern over a string, returning the
matched text. -/
def re_search_email (text : String) : Option String :=
  (findEmail text.data).map (fun cs => String.mk cs)

/-- From `agents/router_agent.py` line 18. -/
def DATA_AGENT_URL : String := "http://127.0.0.1:8101"

/-- From `agents/router_agent.py` line 17. -/
def SUPPORT_AGENT_URL : String := "http://127.0.0.1:8102"

/-- The tuple returned by `build_agent_task`. -/
structure AgentTask where
  target_url : String
  msg : JVal
  intent_name : String
  requires_escalation : Bool

/-- The four data-oriented intents routed to the data specialist
(`agents/router_agent.py` line 119). -/
def dataIntents : List String :=
  ["get_customer_info", "get_customer_history", "update_email", "list_customers"]

/-- The support intents that set `requires_escalation`
(`agents/router_agent.py` line 158). -/
def supportEscalationIntents : List String :=
  ["refund_request", "cancel_subscription", "upgrade_request", "escalate_issue"]

/-- Lines 125-133 of `build_agent_task` (`agents/router_agent.py`):
derive the status filter for a listing intent — the `status_filter`
entity, else the literal `"active"` when the lowered text contains that
substring, case-folded to lowercase when truthy. -/
def list_customers_status (text : JVal) (entities : List (String × JVal)) :
    Except String JVal := do
  let status0 := (jlookup entities ("status_filter")).getD JVal.null
  let status1 ←
    if !status0.truthy then do
      let tl ← expectStr text
      pure (if containsSub ("active".data) (strLower tl).data then JVal.str "active" else status0)
    else pure status0
  if status1.truthy then do
    let s ← expectStr status1
    pure (JVal.str (strLower s))
  else pure status1

/-- Lines 136-143 of `build_agent_task`: recover the new email value from
the `email` entity, falling back to the literal pattern search over the
raw text when the entity is absent or falsy. -/
def update_email_value (text : JVal) (entities : List (String × JVal)) :
    Except String JVal := do
  let email0 := (jlookup entities ("email")).getD JVal.null
  if !email0.truthy then do
    let ts ← expectStr text
    pure (match re_search_email ts with
          | some m => JVal.str m
          | none => email0)
  else pure email0

/-- From `agents/router_agent.py`, `build_agent_task` (lines 114-171):
map one classified intent to a task — target specialist URL, outbound
A2A envelope, intent name and escalation flag.  `customer_id` and `text`
are the raw request values (arbitrary JSON); the string operations
(`text.lower()`, `re.search(..., text)`, `status.lower()`) raise on
non-string values, hence the `Except`.  Fresh UUIDs and the timestamp for
the constructed envelope are explicit arguments. -/
def build_agent_task (intent : String) (customer_id text : JVal)
    (entities : List (String × JVal)) (fresh_message_id fresh_corr_id timestamp : String) :
    Except String AgentTask := do
  if intent ∈ dataIntents then
    let payload ←
      if intent = "list_customers" then do
        let status2 ← list_customers_status text entities
        pure [("customer_id", customer_id), ("status", status2)]
      else if intent = "update_email" then do
        let email1 ← update_email_value text entities
        pure [("customer_id", customer_id),
              ("updates", if email1.truthy then JVal.obj [("email", email1)] else JVal.obj [])]
      else
        pure [("customer_id", customer_id)]
    pure { target_url := DATA_AGENT_URL,
           msg := create_a2a_message (JVal.str "router") (JVal.str "customer_data_agent")
                    (JVal.str intent) (JVal.obj payload) (JVal.str "request") JVal.null
                    fresh_message_id fresh_corr_id timestamp,
           intent_name := intent,
           requires_escalation := decide (intent = "update_email") }
  else
    let payload := JVal.obj [("customer_id", customer_id), ("text", text),
                             ("entities", JVal.obj entities)]
    pure { target_url := SUPPORT_AGENT_URL,
           msg := create_a2a_message (JVal.str "router") (JVal.str "support_agent")
                    (JVal.str intent) payload (JVal.str "request") JVal.null
                    fresh_message_id fresh_corr_id timestamp,
           intent_name := intent,
           requires_escalation := decide (intent ∈ supportEscalationIntents) }

/-- One element of the list `asyncio.gather(..., return_exceptions=True)`
hands back to the orchestrator: either the raised exception of a task or
the value `send_message` returned for it.  `gather` returns results
positionally, in task order, regardless of completion order. -/
inductive RawResult where
  | exn (msg : String)
  | val (v : JVal)

/-- The per-task unwrapping of `query_endpoint`
(`agents/router_agent.py` lines 203-228): returns `(status, data)`. -/
def unwrap_result (res : RawResult) : JVal × JVal :=
  match res with
  | .exn m => (JVal.str "error", JVal.str m)
  | .val v =>
    match v with
    | .obj fs =>
      match jlookup fs ("payload") with
      | some pl =>
        match pl with
        | .arr (x :: _) =>
          match x with
          | .obj xf => ((jlookup xf ("status")).getD (JVal.str "ok"), x)
          | _ => (JVal.str "ok", x)
        | .arr [] => (JVal.str "ok", JVal.arr [])
        | _ => (JVal.str "ok", pl)
      | none =>
        ((jlookup fs ("status")).getD (JVal.str "unknown"),
         pyOr ((jlookup fs ("data")).getD JVal.null) ((jlookup fs ("error")).getD JVal.null))
    | _ => (JVal.str "error", JVal.null)

/-- One aggregated ResultEntry dict (`agents/router_agent.py` lines
229-234). -/
def make_result_entry (intent : String) (esc : Bool) (res : RawResult) : JVal :=
  JVal.obj [("intent", JVal.str intent),
            ("status", (unwrap_result res).1),
            ("data", (unwrap_result res).2),
            ("requires_escalation", JVal.bool esc)]

/-- The precondition-failure response of the query endpoint
(`agents/router_agent.py` line 183). -/
def ROUTER_ERROR_MISSING : JVal :=
  JVal.obj [("status", JVal.str "error"),
            ("message", JVal.str "Missing \x27text\x27 or \x27customer_id\x27")]

/-- From `agents/router_agent.py`, `query_endpoint` (lines 176-237):
reject on falsy `text`/`customer_id`; classify; build one task per
intent; dispatch concurrently and gather; aggregate one entry per intent
in classification order.  Oracle arguments: `classify` (the LLM
classification stage, returning intents and entities), `fresh` (the UUID
pair drawn for the `k`-th constructed envelope), `timestamp`, and
`responses` (the positional results of `asyncio.gather` over the
dispatched `send_message` calls — one per task, in task order). -/
def query_endpoint (body : JVal)
    (classify : JVal → List String × List (String × JVal))
    (fresh : Nat → String × String) (timestamp : String)
    (responses : List RawResult) : Except String JVal := do
  let text ← pyGet body ("text") JVal.null
  let customer_id ← pyGet body ("customer_id") JVal.null
  if !text.truthy || !customer_id.truthy then
    return ROUTER_ERROR_MISSING
  let (intents, entities) := classify text
  let tasks ← intents.enum.mapM (fun p =>
    build_agent_task p.2 customer_id text entities (fresh p.1).1 (fresh p.1).2 timestamp)
  let task_metadata := tasks.map (fun t => (t.intent_name, t.requires_escalation))
  let results := (task_metadata.zip responses).map (fun p => make_result_entry p.1.1 p.1.2 p.2)
  pure (JVal.obj [("status", JVal.str "ok"), ("results", JVal.arr results)])

/-- From `mcp_server/app.py`, `list_customers` (lines 35-41): normalize
the status filter — falsy values are left alone, anything else is
lowercased and stripped, and an unrecognized value becomes `None`. -/
def mcp_normalize_status (status : Option String) : Option String :=
  match status with
  | none => none
  | some s =>
    if s = "" then some s
    else
      let s2 := strTrim (strLower s)
      if s2 = "active" ∨ s2 = "disabled" then some s2 else none

/-- From `mcp_server/app.py`, `list_customers` (lines 43-46): the same
normalization for the tier filter. -/
def mcp_normalize_tier (tier : Option String) : Option String :=
  match tier with
  | none => none
  | some s =>
    if s = "" then some s
    else
      let s2 := strTrim (strLower s)
      if s2 = "standard" ∨ s2 = "premium" ∨ s2 = "enterprise" then some s2 else none

/-- From `mcp_server/app.py`, `list_customers` (lines 31-55): the
argument triple the tool passes on to the database collaborator
(`db_utils.list_customers`), after input normalization.  The database
call itself is outside the modelled core. -/
def mcp_list_customers_args (status tier : Option String) (limit : Option Int) :
    Option String × Option String × Option Int :=
  (mcp_normalize_status status, mcp_normalize_tier tier, limit)

/-- Python `v == "s"` for a string literal: true exactly when `v` is that
string (equality across types is `False` in Python). -/
def jvalEqStr (v : JVal) (s : String) : Bool :=
  match v with
  | .str t => t == s
  | _ => false

/-- From `agents/customer_data_agent.py`, `normalize_payload` (lines
35-37): ensure a `customer_id`-keyed payload for MCP tool calls. -/
def normalize_payload (payload : JVal) : Except String JVal := do
  let b ← pyContains payload ("customer_id")
  if b then do
    let cid ← pyIndex payload ("customer_id")
    pure (JVal.obj [("customer_id", cid)])
  else pure payload

/-- From `agents/customer_data_agent.py`, `handle_customer_intent`
(lines 42-65): the intent-handler table of the data specialist.  `tool` is
the MCP tool-host oracle (`AgentConnector.invoke_tool`, which catches all
its own exceptions and therefore always returns a value). -/
def handle_customer_intent (tool : String → JVal → JVal) (intent : JVal) (payload : JVal) :
    Except String JVal := do
  if jvalEqStr intent ("get_customer_info") then do
    let p ← normalize_payload payload
    pure (tool ("get_customer") p)
  else if jvalEqStr intent ("list_customers") then
    pure (tool ("list_customers") payload)
  else if jvalEqStr intent ("update_email") then do
    let updates ← pyGet payload ("updates") (JVal.obj [])
    let cid ← pyIndex payload ("customer_id")
    pure (tool ("update_customer") (JVal.obj [("customer_id", cid), ("data", updates)]))
  else if jvalEqStr intent ("update_customer") then
    pure (tool ("update_customer") payload)
  else if jvalEqStr intent ("get_customer_history") then do
    let p ← normalize_payload payload
    pure (tool ("get_customer_history") p)
  else
    pure (JVal.obj [("status", JVal.str "error"),
                    ("data", JVal.str ("Unknown intent: " ++ pyStr intent))])

/-- The tail of `handle_support_intent` (`agents/support_agent.py` lines
114-128): append the phrasing-oracle message to the structured result
(`action` is the `action_description` of the branch). -/
def supportTail (phrase : String → JVal → JVal → String) (text : JVal)
    (action : String) (response_data : JVal) : JVal :=
  if action ≠ "" then
    let llm_message := phrase action response_data text
    match response_data with
    | .arr xs => JVal.obj [("data", JVal.arr xs), ("answer_text", JVal.str llm_message)]
    | .obj fs => JVal.obj (setKey fs ("answer_text") (JVal.str llm_message))
    | other => other
  else response_data

/-- From `agents/support_agent.py`, `handle_support_intent` (lines
57-128): the intent-handler table of the support specialist, with aliases.
`tool` is the MCP tool-host oracle; `phrase` is the
`generate_polite_response` phrasing step (lines 31-52, an LLM call whose
own failure degrades to a canned string inside the oracle). -/
def handle_support_intent (tool : String → JVal → JVal)
    (phrase : String → JVal → JVal → String) (intent : JVal) (payload : JVal) :
    Except String JVal := do
  let customer_id ← pyGet payload ("customer_id") JVal.null
  let text ← pyGet payload ("text") (JVal.str "")
  let entities ← pyGet payload ("entities") (JVal.obj [])
  if jvalEqStr intent ("upgrade_request") || jvalEqStr intent ("upgrade_account") then
    pure (supportTail phrase text ("Upgrade processed.") (JVal.obj [("status", JVal.str "ok")]))
  else if jvalEqStr intent ("show_ticket_status") || jvalEqStr intent ("show_ticket_history") ||
      jvalEqStr intent ("get_active_customers_with_open_tickets") ||
      jvalEqStr intent ("get_customer_history") then
    if !customer_id.truthy then
      pure (JVal.obj [("status", JVal.str "error"), ("error", JVal.str "Missing customer_id")])
    else
      let tickets := tool ("list_tickets") (JVal.obj [("customer_ids", JVal.arr [customer_id])])
      let action := match tickets with
        | .arr (x :: xs) => "Found " ++ toString (x :: xs).length ++ " tickets."
        | _ => "No tickets found."
      pure (supportTail phrase text action tickets)
  else if jvalEqStr intent ("escalate_issue") || jvalEqStr intent ("billing_issues") ||
      jvalEqStr intent ("angry_customer") then do
    let r ← pyGet entities ("reason") JVal.null
    let reason := pyOr r text
    let ticket := tool ("create_ticket")
      (JVal.obj [("customer_id", customer_id), ("issue", reason), ("priority", JVal.str "medium")])
    let tid ← pyGet ticket ("id") (JVal.str "unknown")
    pure (supportTail phrase text ("Escalation Ticket #" ++ pyStr tid ++ " created.") ticket)
  else if jvalEqStr intent ("refund_request") then
    pure (supportTail phrase text ("Refund initiated successfully.")
      (JVal.obj [("status", JVal.str "ok"), ("refund_id", JVal.str "REF-998877")]))
  else if jvalEqStr intent ("cancel_subscription") then
    pure (supportTail phrase text ("Subscription cancelled.") (JVal.obj [("status", JVal.str "ok")]))
  else if jvalEqStr intent ("support_request") then
    pure (supportTail phrase text ("General inquiry logged.") (JVal.obj [("status", JVal.str "ok")]))
  else
    pure (JVal.obj [("status", JVal.str "error"),
                    ("error", JVal.str ("Unknown intent: " ++ pyStr intent))])

/-- From `agents/customer_data_agent.py`, the `/a2a` endpoint
(lines 70-100): validate, normalize the intent to a list, run the
handler for each intent, wrap the results in a `response` envelope; any
exception is mirrored with `generate_error_response`.  The outer
`Except.error` models an exception raised by the mirroring itself (a
non-dict `msg`). -/
def handle_a2a_data (tool : String → JVal → JVal) (msg : JVal)
    (fresh_message_id fresh_corr_id err_message_id err_corr_id timestamp : String) :
    Except String JVal :=
  let body : Except String JVal := do
    let _ ← check_message_schema msg
    let intent ← pyIndex msg ("intent")
    let payload ← pyIndex msg ("payload")
    let cid ← pyIndex msg ("correlation_id")
    let intents := match intent with | .arr xs => xs | x => [x]
    let results ← intents.mapM (fun i => handle_customer_intent tool i payload)
    let sender ← pyIndex msg ("from")
    pure (create_a2a_message (JVal.str "customer_data_agent") sender (JVal.arr intents)
          (JVal.arr results) (JVal.str "response") cid fresh_message_id fresh_corr_id timestamp)
  match body with
  | .ok env => .ok env
  | .error e => generate_error_response msg e err_message_id err_corr_id timestamp

/-- From `agents/support_agent.py`, the `/a2a` endpoint (lines 130-146):
the same receive/fan-out/gather/reply pattern over the support
handlers. -/
def handle_a2a_support (tool : String → JVal → JVal)
    (phrase : String → JVal → JVal → String) (msg : JVal)
    (fresh_message_id fresh_corr_id err_message_id err_corr_id timestamp : String) :
    Except String JVal :=
  let body : Except String JVal := do
    let _ ← check_message_schema msg
    let intent ← pyIndex msg ("intent")
    let payload ← pyIndex msg ("payload")
    let intents := match intent with | .arr xs => xs | x => [x]
    let results ← intents.mapM (fun i => handle_support_intent tool phrase i payload)
    let sender ← pyIndex msg ("from")
    let cid ← pyIndex msg ("correlation_id")
    pure (create_a2a_message (JVal.str "support_agent") sender (JVal.arr intents)
          (JVal.arr results) (JVal.str "response") cid fresh_message_id fresh_corr_id timestamp)
  match body with
  | .ok env => .ok env
  | .error e => generate_error_response msg e err_message_id err_corr_id timestamp

/-! ## Theorems -/

/-- On a dict, the missing-field computation is exactly the filter of the
required fields whose key is absent. -/
theorem missingAux_obj (fs : List (String × JVal)) (l : List String) :
    missingAux (JVal.obj fs) l = .ok (l.filter (fun f => (jlookup fs f).isNone)) := by
  induction l with
  | nil => rfl
  | cons f rest ih =>
    cases h : jlookup fs f <;>
      simp [missingAux, pyContains, ih, List.filter, h, Except.bind, bind, pure, Except.pure]

/-- C3: for every argument tuple, the constructed A2A message passes
schema validation; and for every envelope object, a failing validation
reports exactly the required fields that are absent — all of them, not
only the first. -/
theorem claim_C3_validate_construct (sender recipient intent content msg_type corr : JVal)
    (m c ts : String) (fs : List (String × JVal)) :
    check_message_schema
        (create_a2a_message sender recipient intent content msg_type corr m c ts) = .ok true
    ∧ (requiredFields.filter (fun f => (jlookup fs f).isNone) ≠ [] →
        check_message_schema (JVal.obj fs) =
          .error ("Invalid A2A Message. Missing: "
            ++ pyReprList (requiredFields.filter (fun f => (jlookup fs f).isNone))))
    ∧ (∀ f, f ∈ requiredFields → jlookup fs f = none →
        f ∈ requiredFields.filter (fun f2 => (jlookup fs f2).isNone)) := by
  refine ⟨rfl, ?_, ?_⟩
  · intro h
    simp only [check_message_schema, missingFields, missingAux_obj, Except.bind, bind]
    simp [List.isEmpty_iff, h]
  · intro f hf hnone
    simp [List.mem_filter, hf, hnone]

/-- C3 witness: a concretely constructed message validates, and an
envelope missing five required fields is reported with all five named. -/
theorem claim_C3_validate_construct_witness :
    check_message_schema
        (create_a2a_message (JVal.str "router") (JVal.str "support_agent")
          (JVal.str "refund_request") (JVal.obj [("customer_id", JVal.num 1)])
          (JVal.str "request") JVal.null "m1" "c1" "t1") = .ok true
    ∧ check_message_schema (JVal.obj [("message_id", JVal.null), ("from", JVal.str "x")]) =
        .error ("Invalid A2A Message. Missing: "
          ++ pyReprList ["to", "type", "intent", "payload", "correlation_id"]) := by
  have h := claim_C3_validate_construct (JVal.str "router") (JVal.str "support_agent")
    (JVal.str "refund_request") (JVal.obj [("customer_id", JVal.num 1)])
    (JVal.str "request") JVal.null "m1" "c1" "t1"
    [("message_id", JVal.null), ("from", JVal.str "x")]
  refine ⟨h.1, ?_⟩
  have h2 := h.2.1 (by decide)
  simpa using h2

/-- C2 (amended): for every envelope whose `to`, `from` and `intent`
fields are present and whose `correlation_id` is present and truthy
(non-empty, non-null), the mirrored error envelope has `type=error`,
swapped `from`/`to`, the same intent and correlation id, and payload
`{error: msg}`.  (The truthiness proviso is forced by the source line
`corr_id or str(uuid.uuid4())`: a falsy correlation id is replaced by a
fresh one — see the counterexample.) -/
theorem claim_C2_mirror_error (fs : List (String × JVal)) (tv fv iv cv : JVal)
    (msgText fm fc ts : String)
    (hto : jlookup fs ("to") = some tv) (hfrom : jlookup fs ("from") = some fv)
    (hint : jlookup fs ("intent") = some iv)
    (hcorr : jlookup fs ("correlation_id") = some cv)
    (htruthy : cv.truthy = true) :
    generate_error_response (JVal.obj fs) msgText fm fc ts =
      .ok (JVal.obj [
        ("message_id", JVal.str fm),
        ("from", tv),
        ("to", fv),
        ("type", JVal.str "error"),
        ("intent", iv),
        ("payload", JVal.obj [("error", JVal.str msgText)]),
        ("correlation_id", cv),
        ("timestamp", JVal.str ts)]) := by
  simp only [generate_error_response, pyGet, hto, hfrom, hint, hcorr, create_a2a_message,
    htruthy, Option.getD_some, Except.bind, bind, pure, Except.pure, if_true]
  rfl

/-- C2 witness: the amended theorem applied at a concrete envelope with a
non-empty correlation id. -/
theorem claim_C2_mirror_error_witness :
    generate_error_response (JVal.obj [("to", JVal.str "support_agent"),
        ("from", JVal.str "router"), ("intent", JVal.str "refund_request"),
        ("correlation_id", JVal.str "corr-7")]) "boom" "m9" "c9" "t9" =
      .ok (JVal.obj [
        ("message_id", JVal.str "m9"),
        ("from", JVal.str "support_agent"),
        ("to", JVal.str "router"),
        ("type", JVal.str "error"),
        ("intent", JVal.str "refund_request"),
        ("payload", JVal.obj [("error", JVal.str "boom")]),
        ("correlation_id", JVal.str "corr-7"),
        ("timestamp", JVal.str "t9")]) :=
  claim_C2_mirror_error _ _ _ _ _ _ _ _ _ (by rfl) (by rfl) (by rfl) (by rfl) (by rfl)

/-- C2 counterexample: an envelope whose `correlation_id` field is
present but equal to the empty string.  The claim asserts the mirrored
envelope carries the same correlation id; the code instead substitutes
the freshly generated one (`corr_id or str(uuid.uuid4())`), here `"c9"`. -/
theorem claim_C2_counterexample :
    (generate_error_response (JVal.obj [("to", JVal.str "support_agent"),
        ("from", JVal.str "router"), ("intent", JVal.str "refund_request"),
        ("correlation_id", JVal.str "")]) "boom" "m9" "c9" "t9").toOption.bind
      (fun env => envField env ("correlation_id")) = some (JVal.str "c9")
    ∧ jlookup [("to", JVal.str "support_agent"), ("from", JVal.str "router"),
        ("intent", JVal.str "refund_request"), ("correlation_id", JVal.str "")]
        ("correlation_id") = some (JVal.str "")
    ∧ JVal.str "c9" ≠ JVal.str "" :=
  ⟨rfl, rfl, fun h => absurd (JVal.str.inj h) (by decide)⟩

/-- C6: `send_message` is a total function of the transport outcome (it
never raises): a raised network exception or a non-200 status yields the
synthetic `{status: error, error: cause}` dict, a schema-validation
failure yields the same shape with the validation message, and only a
200 response with a decodable body yields the decoded peer reply. -/
theorem claim_C6_send_message (message : JVal) :
    (∀ e, check_message_schema message = .error e →
        ∀ outcome, send_message message outcome = errorDict e)
    ∧ (check_message_schema message = .ok true →
        (∀ m, send_message message (.exn m) = errorDict m)
        ∧ (∀ code text body, code ≠ 200 →
            send_message message (.resp code text body) =
              errorDict ("HTTP " ++ toString code ++ ": " ++ text))
        ∧ (∀ text b, send_message message (.resp 200 text (some b)) = b)) := by
  refine ⟨?_, ?_⟩
  · intro e he outcome
    simp [send_message, he]
  · intro hok
    refine ⟨?_, ?_, ?_⟩
    · intro m; simp [send_message, hok]
    · intro code text body hne; simp [send_message, hok, hne]
    · intro text b; simp [send_message, hok]

/-- C6 witness: a concrete valid envelope sent into each outcome shape. -/
theorem claim_C6_send_message_witness :
    send_message
        (create_a2a_message (JVal.str "router") (JVal.str "customer_data_agent")
          (JVal.str "get_customer_info") (JVal.obj [("customer_id", JVal.num 1)])
          (JVal.str "request") JVal.null "m1" "c1" "t1")
        (.resp 404 "not found" none) = errorDict "HTTP 404: not found"
    ∧ send_message
        (create_a2a_message (JVal.str "router") (JVal.str "customer_data_agent")
          (JVal.str "get_customer_info") (JVal.obj [("customer_id", JVal.num 1)])
          (JVal.str "request") JVal.null "m1" "c1" "t1")
        (.exn "Connection refused") = errorDict "Connection refused"
    ∧ send_message
        (create_a2a_message (JVal.str "router") (JVal.str "customer_data_agent")
          (JVal.str "get_customer_info") (JVal.obj [("customer_id", JVal.num 1)])
          (JVal.str "request") JVal.null "m1" "c1" "t1")
        (.resp 200 "" (some (JVal.obj [("status", JVal.str "ok")]))) =
          JVal.obj [("status", JVal.str "ok")]
    ∧ send_message (JVal.obj [("from", JVal.str "router")]) (.exn "ignored") =
        errorDict ("Invalid A2A Message. Missing: "
          ++ pyReprList ["message_id", "to", "type", "intent", "payload", "correlation_id"]) := by
  have h := claim_C6_send_message
    (create_a2a_message (JVal.str "router") (JVal.str "customer_data_agent")
      (JVal.str "get_customer_info") (JVal.obj [("customer_id", JVal.num 1)])
      (JVal.str "request") JVal.null "m1" "c1" "t1")
  have hinv := (claim_C6_send_message (JVal.obj [("from", JVal.str "router")])).1
  refine ⟨(h.2 (by rfl)).2.1 404 "not found" none (by decide),
          (h.2 (by rfl)).1 "Connection refused",
          (h.2 (by rfl)).2.2 "" (JVal.obj [("status", JVal.str "ok")]),
          ?_⟩
  have h4 := hinv _ (by rfl) (.exn "ignored")
  simpa using h4

/-- C10: the query-endpoint precondition is a truthiness test, not a
presence test — `customer_id = 0`, `text = ""`, and absent fields are all
rejected with the same structured error, and the classifier and the
dispatch oracles are never consulted (the result is the same for every
`classify`/`responses`). -/
theorem claim_C10_truthiness_precondition
    (classify : JVal → List String × List (String × JVal))
    (fresh : Nat → String × String) (ts : String) (responses : List RawResult)
    (cid : JVal) (t : String) :
    query_endpoint (JVal.obj [("text", JVal.str ""), ("customer_id", cid)])
        classify fresh ts responses = .ok ROUTER_ERROR_MISSING
    ∧ query_endpoint (JVal.obj [("text", JVal.str t), ("customer_id", JVal.num 0)])
        classify fresh ts responses = .ok ROUTER_ERROR_MISSING
    ∧ query_endpoint (JVal.obj []) classify fresh ts responses = .ok ROUTER_ERROR_MISSING := by
  refine ⟨rfl, ?_, rfl⟩
  simp [query_endpoint, pyGet, jlookup, JVal.truthy, Except.bind, bind, pure, Except.pure]

/-- C5: the per-task unwrapping of the orchestrator.  A reply whose
`payload` is a non-empty list yields its first element as `data` with the
own `status` field of that element (defaulting to `ok`); an empty-list payload yields
`status=ok` with the empty list as data; a reply without a `payload` key
(an error-shaped envelope) yields the top-level `status` of the reply
(default `unknown`) and `data or error`; a raised transport exception
yields `status=error` with the exception text as data. -/
theorem claim_C5_unwrap (fs xf : List (String × JVal)) (rest : List JVal) (m : String) :
    (jlookup fs ("payload") = some (JVal.arr (JVal.obj xf :: rest)) →
        unwrap_result (.val (JVal.obj fs)) =
          ((jlookup xf ("status")).getD (JVal.str "ok"), JVal.obj xf))
    ∧ (jlookup fs ("payload") = some (JVal.arr []) →
        unwrap_result (.val (JVal.obj fs)) = (JVal.str "ok", JVal.arr []))
    ∧ (jlookup fs ("payload") = none →
        unwrap_result (.val (JVal.obj fs)) =
          ((jlookup fs ("status")).getD (JVal.str "unknown"),
           pyOr ((jlookup fs ("data")).getD JVal.null) ((jlookup fs ("error")).getD JVal.null)))
    ∧ unwrap_result (.exn m) = (JVal.str "error", JVal.str m) := by
  refine ⟨?_, ?_, ?_, rfl⟩
  · intro h; simp [unwrap_result, h]
  · intro h; simp [unwrap_result, h]
  · intro h; simp [unwrap_result, h]

/-- C5 witness: the four unwrapping shapes at concrete replies. -/
theorem claim_C5_unwrap_witness :
    unwrap_result (.val (JVal.obj [("payload",
        JVal.arr [JVal.obj [("status", JVal.str "ok"), ("name", JVal.str "Alice")]])])) =
      (JVal.str "ok", JVal.obj [("status", JVal.str "ok"), ("name", JVal.str "Alice")])
    ∧ unwrap_result (.val (JVal.obj [("payload", JVal.arr [])])) =
        (JVal.str "ok", JVal.arr [])
    ∧ unwrap_result (.val (JVal.obj [("status", JVal.str "error"),
        ("error", JVal.str "HTTP 500: boom")])) =
        (JVal.str "error", JVal.str "HTTP 500: boom")
    ∧ unwrap_result (.exn "Connection refused") =
        (JVal.str "error", JVal.str "Connection refused") := by
  have h1 := (claim_C5_unwrap [("payload",
      JVal.arr [JVal.obj [("status", JVal.str "ok"), ("name", JVal.str "Alice")]])]
      [("status", JVal.str "ok"), ("name", JVal.str "Alice")] [] "x").1 (by rfl)
  have h2 := (claim_C5_unwrap [("payload", JVal.arr [])] [] [] "x").2.1 (by rfl)
  have h3 := (claim_C5_unwrap [("status", JVal.str "error"),
      ("error", JVal.str "HTTP 500: boom")] [] [] "x").2.2.1 (by rfl)
  have h4 := (claim_C5_unwrap [] [] [] "Connection refused").2.2.2
  exact ⟨by simpa using h1, h2, by simpa [pyOr, jlookup] using h3, h4⟩

/-- C8: for a `list_customers` intent the dispatched router payload
carries the canonical lowercase status `"active"` whether the filter
arrives as a `status_filter` entity spelled `"Active"`, `"ACTIVE"` or
`"active"`, or is detected as the substring `"active"` of the lowered
query text; and the MCP tool normalizes an unrecognized (non-empty)
status filter value to no filter (`None`) instead of erroring, while the
three spellings all normalize to `"active"` there as well. -/
theorem claim_C8_status_normalization :
    (∀ (v : String), v = "Active" ∨ v = "ACTIVE" ∨ v = "active" →
      ∀ (cid text : JVal) (ents : List (String × JVal)) (fm fc ts : String),
        jlookup ents ("status_filter") = some (JVal.str v) →
        (build_agent_task "list_customers" cid text ents fm fc ts).map
            (fun t => envField t.msg ("payload"))
          = .ok (some (JVal.obj [("customer_id", cid), ("status", JVal.str "active")])))
    ∧ (∀ (cid : JVal) (s : String) (ents : List (String × JVal)) (fm fc ts : String),
        ((jlookup ents ("status_filter")).getD JVal.null).truthy = false →
        containsSub ("active".data) (strLower s).data = true →
        (build_agent_task "list_customers" cid (JVal.str s) ents fm fc ts).map
            (fun t => envField t.msg ("payload"))
          = .ok (some (JVal.obj [("customer_id", cid), ("status", JVal.str "active")])))
    ∧ (∀ (st : String), st ≠ "" →
        strTrim (strLower st) ≠ "active" → strTrim (strLower st) ≠ "disabled" →
        mcp_normalize_status (some st) = none)
    ∧ mcp_normalize_status (some "Active") = some "active"
    ∧ mcp_normalize_status (some "ACTIVE") = some "active"
    ∧ mcp_normalize_status (some "active") = some "active" := by
  refine ⟨?_, ?_, ?_, rfl, rfl, rfl⟩
  · intro v hv cid text ents fm fc ts hsf
    rcases hv with rfl | rfl | rfl <;>
      simp [build_agent_task, list_customers_status, dataIntents, hsf, Except.bind, bind, pure,
        Except.pure, JVal.truthy, expectStr, create_a2a_message, envField, jlookup, Except.map,
        strLower]
  · intro cid s ents fm fc ts habs htext
    simp only [strLower] at htext
    simp only [build_agent_task, list_customers_status, dataIntents, Except.bind, bind, pure,
      Except.pure, Except.map]
    simp only [habs]
    simp [JVal.truthy, expectStr, create_a2a_message, envField, jlookup, strLower, htext,
      Except.bind, bind, pure, Except.pure, Except.map]
  · intro st hne h1 h2
    simp [mcp_normalize_status, hne, h1, h2]

/-- C8 witness: the entity spelling `"ACTIVE"`, the text-substring
detection, and an unrecognized filter value `"gold"` at concrete
inputs. -/
theorem claim_C8_status_normalization_witness :
    (build_agent_task "list_customers" (JVal.num 1) JVal.null
        [("status_filter", JVal.str "ACTIVE")] "m" "c" "t").map
        (fun t => envField t.msg ("payload"))
      = .ok (some (JVal.obj [("customer_id", JVal.num 1), ("status", JVal.str "active")]))
    ∧ (build_agent_task "list_customers" (JVal.num 1)
        (JVal.str "Show me all ACTIVE customers") [] "m" "c" "t").map
        (fun t => envField t.msg ("payload"))
      = .ok (some (JVal.obj [("customer_id", JVal.num 1), ("status", JVal.str "active")]))
    ∧ mcp_normalize_status (some "gold") = none := by
  refine ⟨?_, ?_, ?_⟩
  · exact claim_C8_status_normalization.1 "ACTIVE" (by simp) (JVal.num 1) JVal.null
      [("status_filter", JVal.str "ACTIVE")] "m" "c" "t" (by rfl)
  · exact claim_C8_status_normalization.2.1 (JVal.num 1) "Show me all ACTIVE customers"
      [] "m" "c" "t" (by rfl) (by decide)
  · exact claim_C8_status_normalization.2.2.1 "gold" (by decide) (by decide) (by decide)

/-- The five intents for which the router sets the escalation flag:
`update_email` (data route, line 144) plus the four support-route
escalation intents (line 158). -/
def escalationIntents : List String := "update_email" :: supportEscalationIntents

/-- Destructuring a successful `build_agent_task`: the task keeps the
intent name, its escalation flag agrees with the five-element escalation
table, data intents go to the data agent with a payload headed by the
customer id, and all other intents go to the support agent with the
`customer_id`/`text`/`entities` payload. -/
theorem build_agent_task_full_spec (intent : String) (cid text : JVal)
    (ents : List (String × JVal)) (fm fc ts : String) (task : AgentTask)
    (h : build_agent_task intent cid text ents fm fc ts = .ok task) :
    task.intent_name = intent
    ∧ task.requires_escalation = decide (intent ∈ escalationIntents)
    ∧ (intent ∈ dataIntents →
        task.target_url = DATA_AGENT_URL
        ∧ ∃ rest, envField task.msg ("payload") = some (JVal.obj (("customer_id", cid) :: rest)))
    ∧ (intent ∉ dataIntents →
        task.target_url = SUPPORT_AGENT_URL
        ∧ envField task.msg ("payload") =
            some (JVal.obj [("customer_id", cid), ("text", text), ("entities", JVal.obj ents)])) := by
  by_cases hd : intent ∈ dataIntents
  · have hd' := hd
    simp only [dataIntents, List.mem_cons, List.not_mem_nil, or_false] at hd'
    rcases hd' with rfl | rfl | rfl | rfl
    · simp only [build_agent_task] at h
      rw [if_pos hd] at h
      simp [pure, Except.pure, Except.bind, bind] at h
      subst h
      exact ⟨rfl, by simp [escalationIntents, supportEscalationIntents], fun _ => ⟨rfl, ⟨[],
        by simp [envField, create_a2a_message, JVal.truthy, jlookup]⟩⟩,
        fun hn => absurd hd hn⟩
    · simp only [build_agent_task] at h
      rw [if_pos hd] at h
      simp [pure, Except.pure, Except.bind, bind] at h
      subst h
      exact ⟨rfl, by simp [escalationIntents, supportEscalationIntents], fun _ => ⟨rfl, ⟨[],
        by simp [envField, create_a2a_message, JVal.truthy, jlookup]⟩⟩,
        fun hn => absurd hd hn⟩
    · simp only [build_agent_task] at h
      rw [if_pos hd] at h
      simp [pure, Except.pure, Except.bind, bind] at h
      rcases hsv : update_email_value text ents with err | email1
      all_goals rw [hsv] at h; simp [pure, Except.pure, Except.bind, bind] at h
      subst h
      refine ⟨rfl, by simp [escalationIntents, supportEscalationIntents], fun _ => ⟨rfl, ⟨[("updates",
        if email1.truthy then JVal.obj [("email", email1)] else JVal.obj [])],
        by simp [envField, create_a2a_message, JVal.truthy, jlookup]⟩⟩,
        fun hn => absurd hd hn⟩
    · simp only [build_agent_task] at h
      rw [if_pos hd] at h
      simp [pure, Except.pure, Except.bind, bind] at h
      rcases hsv : list_customers_status text ents with err | s2
      all_goals rw [hsv] at h; simp [pure, Except.pure, Except.bind, bind] at h
      subst h
      refine ⟨rfl, by simp [escalationIntents, supportEscalationIntents], fun _ => ⟨rfl, ⟨[("status", s2)],
        by simp [envField, create_a2a_message, JVal.truthy, jlookup]⟩⟩,
        fun hn => absurd hd hn⟩
  · simp only [build_agent_task, if_neg hd] at h
    have hne : intent ≠ "update_email" := by
      intro hq; exact hd (by simp [dataIntents, hq])
    simp [pure, Except.pure] at h
    subst h
    refine ⟨rfl, ?_, fun hn => absurd hn hd, fun _ => ⟨rfl, ?_⟩⟩
    · simp [escalationIntents, hne]
    · simp [envField, create_a2a_message, JVal.truthy, jlookup]

/-- C4: a successfully built task targets the data specialist exactly
when the intent is one of the four data intents (profile, history,
email update, listing), with a payload headed by the customer id, and
the support specialist otherwise, with the
`customer_id`/`text`/`entities` payload; the escalation flag is set
exactly for the five intents `update_email`, `refund_request`,
`cancel_subscription`, `upgrade_request`, `escalate_issue`. -/
theorem claim_C4_routing_table (intent : String) (cid text : JVal)
    (ents : List (String × JVal)) (fm fc ts : String) (task : AgentTask)
    (h : build_agent_task intent cid text ents fm fc ts = .ok task) :
    (task.target_url = DATA_AGENT_URL ↔ intent ∈ dataIntents)
    ∧ (task.target_url = SUPPORT_AGENT_URL ↔ intent ∉ dataIntents)
    ∧ task.requires_escalation = decide (intent ∈ escalationIntents)
    ∧ (intent ∈ dataIntents →
        ∃ rest, envField task.msg ("payload") = some (JVal.obj (("customer_id", cid) :: rest)))
    ∧ (intent ∉ dataIntents →
        envField task.msg ("payload") =
          some (JVal.obj [("customer_id", cid), ("text", text), ("entities", JVal.obj ents)])) := by
  obtain ⟨h1, h2, h3, h4⟩ := build_agent_task_full_spec intent cid text ents fm fc ts task h
  have hurl : DATA_AGENT_URL ≠ SUPPORT_AGENT_URL := by decide
  by_cases hd : intent ∈ dataIntents
  · obtain ⟨ht, hp⟩ := h3 hd
    exact ⟨by simp [ht, hd], by simp [ht, hd, hurl], h2, fun _ => hp, fun hn => absurd hd hn⟩
  · obtain ⟨ht, hp⟩ := h4 hd
    exact ⟨by simp [ht, hd, (Ne.symm hurl : SUPPORT_AGENT_URL ≠ DATA_AGENT_URL)], by simp [ht, hd], h2,
      fun hq => absurd hq hd, fun _ => hp⟩

/-- C4 witness: the theorem applied to a data intent
(`get_customer_history`, no escalation) and a support intent
(`refund_request`, escalation) at concrete inputs. -/
theorem claim_C4_routing_table_witness :
    ((AgentTask.mk DATA_AGENT_URL
        (create_a2a_message (JVal.str "router") (JVal.str "customer_data_agent")
          (JVal.str "get_customer_history") (JVal.obj [("customer_id", JVal.num 1)])
          (JVal.str "request") JVal.null "m" "c" "t")
        "get_customer_history" false).target_url = DATA_AGENT_URL
      ↔ "get_customer_history" ∈ dataIntents)
    ∧ (AgentTask.mk SUPPORT_AGENT_URL
        (create_a2a_message (JVal.str "router") (JVal.str "support_agent")
          (JVal.str "refund_request")
          (JVal.obj [("customer_id", JVal.num 1), ("text", JVal.str "hi"),
            ("entities", JVal.obj [])])
          (JVal.str "request") JVal.null "m" "c" "t")
        "refund_request" true).requires_escalation
        = decide ("refund_request" ∈ escalationIntents) :=
  ⟨(claim_C4_routing_table "get_customer_history" (JVal.num 1) (JVal.str "hi") [] "m" "c" "t"
      _ (by rfl)).1,
   (claim_C4_routing_table "refund_request" (JVal.num 1) (JVal.str "hi") [] "m" "c" "t"
      _ (by rfl)).2.2.1⟩

/-- C7 counterexample: a 200 response whose body is the unexpected shape
`{"choices": [{}]}` passes the guard in the source (`"choices" in result` and
`len > 0`) and then raises `KeyError` at
`result["choices"][0]["message"]` — the `except` clause catches only
`RequestException`, so `query_llm` raises instead of returning `None`,
contradicting the claim for this unexpected response shape. -/
theorem claim_C7_counterexample :
    query_llm true (fun _ => none)
        (.resp 200 "" (some (JVal.obj [("choices", JVal.arr [JVal.obj []])])))
        (.resp 200 "" (some (JVal.obj [("choices", JVal.arr [JVal.obj []])])))
      = .error "KeyError: message" := rfl

/-- C7 (amended): a 503 status on the first attempt causes exactly one
retry (the value of the call is that of processing the single second
attempt, and a second 503 exhausts the loop yielding `None`); any other
non-success status returns `None` immediately; a response body lacking a
`choices` key, or with an empty `choices` list, returns `None`; and in
JSON mode a parse failure after extraction returns `None`.  (The blanket
claim that any unexpected response shape returns None is cut down to the
shapes the source guard actually covers — a malformed entry inside
`choices` raises instead, see the counterexample.) -/
theorem claim_C7_retry_and_failures :
    (∀ (jm : Bool) (j : String → Option JVal) (t : String) (b : Option JVal) (a1 : LLMAttempt),
      query_llm jm j (.resp 503 t b) a1 = query_llm_single jm j a1)
    ∧ (∀ (jm : Bool) (j : String → Option JVal) (t t2 : String) (b b2 : Option JVal),
      query_llm jm j (.resp 503 t b) (.resp 503 t2 b2) = .ok none)
    ∧ (∀ (jm : Bool) (j : String → Option JVal) (code : Nat) (t : String) (b : Option JVal)
        (a1 : LLMAttempt), code ≠ 200 → code ≠ 503 →
      query_llm jm j (.resp code t b) a1 = .ok none)
    ∧ (∀ (jm : Bool) (j : String → Option JVal) (fs : List (String × JVal)) (t : String)
        (a1 : LLMAttempt), jlookup fs ("choices") = none →
      query_llm jm j (.resp 200 t (some (JVal.obj fs))) a1 = .ok none)
    ∧ (∀ (jm : Bool) (j : String → Option JVal) (fs : List (String × JVal)) (t : String)
        (a1 : LLMAttempt), jlookup fs ("choices") = some (JVal.arr []) →
      query_llm jm j (.resp 200 t (some (JVal.obj fs))) a1 = .ok none)
    ∧ (∀ (j : String → Option JVal) (fs cf mf : List (String × JVal)) (rest : List JVal)
        (content t : String) (a1 : LLMAttempt),
      jlookup fs ("choices") = some (JVal.arr (JVal.obj cf :: rest)) →
      jlookup cf ("message") = some (JVal.obj mf) →
      jlookup mf ("content") = some (JVal.str content) →
      j (clean_json_text content) = none →
      query_llm true j (.resp 200 t (some (JVal.obj fs))) a1 = .ok none) := by
  refine ⟨?_, ?_, ?_, ?_, ?_, ?_⟩
  · intro jm j t b a1
    simp [query_llm, query_llm_attempt, Except.bind, bind, pure, Except.pure]
  · intro jm j t t2 b b2
    simp [query_llm, query_llm_single, query_llm_attempt, Except.bind, bind, pure, Except.pure]
  · intro jm j code t b a1 h200 h503
    simp [query_llm, query_llm_attempt, h200, h503, Except.bind, bind, pure, Except.pure]
  · intro jm j fs t a1 hch
    simp [query_llm, query_llm_attempt, hch, Except.bind, bind, pure, Except.pure]
  · intro jm j fs t a1 hch
    simp [query_llm, query_llm_attempt, hch, Except.bind, bind, pure, Except.pure]
  · intro j fs cf mf rest content t a1 hch hmsg hcont hparse
    simp [query_llm, query_llm_attempt, hch, hmsg, hcont, hparse,
      Except.bind, bind, pure, Except.pure]

/-- C7 witness: two consecutive 503s yield `None` after exactly one
retry; a 500 yields `None`; a body without `choices` yields `None`; a
well-shaped body whose content fails JSON extraction yields `None`. -/
theorem claim_C7_retry_and_failures_witness :
    query_llm true (fun _ => none) (.resp 503 "loading" none) (.resp 503 "loading" none) = .ok none
    ∧ query_llm true (fun _ => none) (.resp 500 "oops" none) (.exn "unused") = .ok none
    ∧ query_llm true (fun _ => none) (.resp 200 "" (some (JVal.obj [("error", JVal.str "x")])))
        (.exn "unused") = .ok none
    ∧ query_llm true (fun _ => none)
        (.resp 200 "" (some (JVal.obj [("choices", JVal.arr [JVal.obj [("message",
          JVal.obj [("content", JVal.str "no json here")])]])])))
        (.exn "unused") = .ok none := by
  refine ⟨claim_C7_retry_and_failures.2.1 true (fun _ => none) "loading" "loading" none none,
    claim_C7_retry_and_failures.2.2.1 true (fun _ => none) 500 "oops" none (.exn "unused")
      (by decide) (by decide),
    claim_C7_retry_and_failures.2.2.2.1 true (fun _ => none) [("error", JVal.str "x")] ""
      (.exn "unused") (by rfl),
    claim_C7_retry_and_failures.2.2.2.2.2 (fun _ => none)
      [("choices", JVal.arr [JVal.obj [("message", JVal.obj [("content", JVal.str "no json here")])]])]
      [("message", JVal.obj [("content", JVal.str "no json here")])]
      [("content", JVal.str "no json here")] [] "no json here" "" (.exn "unused")
      (by rfl) (by rfl) (by rfl) (by rfl)⟩

/-- The intents handled by the table of the data specialist
(`agents/customer_data_agent.py` lines 47-62). -/
def dataHandlerIntents : List String :=
  ["get_customer_info", "list_customers", "update_email", "update_customer",
   "get_customer_history"]

/-- The intents (with aliases) handled by the table of the support specialist
(`agents/support_agent.py` lines 66-109). -/
def supportHandlerIntents : List String :=
  ["upgrade_request", "upgrade_account", "show_ticket_status", "show_ticket_history",
   "get_active_customers_with_open_tickets", "get_customer_history", "escalate_issue",
   "billing_issues", "angry_customer", "refund_request", "cancel_subscription",
   "support_request"]

/-- C9: an intent outside the handler table of a specialist produces a
`status=error` handler result naming that intent — it does not raise —
and an inbound envelope carrying only such an intent still completes
with an ordinary `response` envelope wrapping that per-intent error
result (shown for both the data and the support agent). -/
theorem claim_C9_unknown_intent :
    (∀ (tool : String → JVal → JVal) (payload : JVal) (s : String),
      s ∉ dataHandlerIntents →
      handle_customer_intent tool (JVal.str s) payload =
        .ok (JVal.obj [("status", JVal.str "error"),
                       ("data", JVal.str ("Unknown intent: " ++ s))]))
    ∧ (∀ (tool : String → JVal → JVal) (phrase : String → JVal → JVal → String)
        (pf : List (String × JVal)) (s : String),
      s ∉ supportHandlerIntents →
      handle_support_intent tool phrase (JVal.str s) (JVal.obj pf) =
        .ok (JVal.obj [("status", JVal.str "error"),
                       ("error", JVal.str ("Unknown intent: " ++ s))]))
    ∧ (∀ (tool : String → JVal → JVal) (mid fv tv ty pl cidv tsv : JVal) (s : String)
        (fm fc em ec ts : String),
      s ∉ dataHandlerIntents →
      handle_a2a_data tool
          (JVal.obj [("message_id", mid), ("from", fv), ("to", tv), ("type", ty),
            ("intent", JVal.str s), ("payload", pl), ("correlation_id", cidv),
            ("timestamp", tsv)]) fm fc em ec ts =
        .ok (create_a2a_message (JVal.str "customer_data_agent") fv
          (JVal.arr [JVal.str s])
          (JVal.arr [JVal.obj [("status", JVal.str "error"),
            ("data", JVal.str ("Unknown intent: " ++ s))]])
          (JVal.str "response") cidv fm fc ts))
    ∧ (∀ (tool : String → JVal → JVal) (phrase : String → JVal → JVal → String)
        (mid fv tv ty cidv tsv : JVal) (pf : List (String × JVal)) (s : String)
        (fm fc em ec ts : String),
      s ∉ supportHandlerIntents →
      handle_a2a_support tool phrase
          (JVal.obj [("message_id", mid), ("from", fv), ("to", tv), ("type", ty),
            ("intent", JVal.str s), ("payload", JVal.obj pf), ("correlation_id", cidv),
            ("timestamp", tsv)]) fm fc em ec ts =
        .ok (create_a2a_message (JVal.str "support_agent") fv
          (JVal.arr [JVal.str s])
          (JVal.arr [JVal.obj [("status", JVal.str "error"),
            ("error", JVal.str ("Unknown intent: " ++ s))]])
          (JVal.str "response") cidv fm fc ts)) := by
  have hdata : ∀ (tool : String → JVal → JVal) (payload : JVal) (s : String),
      s ∉ dataHandlerIntents →
      handle_customer_intent tool (JVal.str s) payload =
        .ok (JVal.obj [("status", JVal.str "error"),
                       ("data", JVal.str ("Unknown intent: " ++ s))]) := by
    intro tool payload s hs
    simp only [dataHandlerIntents, List.mem_cons, List.not_mem_nil, or_false, not_or] at hs
    obtain ⟨n1, n2, n3, n4, n5⟩ := hs
    simp [handle_customer_intent, jvalEqStr, n1, n2, n3, n4, n5, pyStr,
      Except.bind, bind, pure, Except.pure]
  have hsupp : ∀ (tool : String → JVal → JVal) (phrase : String → JVal → JVal → String)
      (pf : List (String × JVal)) (s : String),
      s ∉ supportHandlerIntents →
      handle_support_intent tool phrase (JVal.str s) (JVal.obj pf) =
        .ok (JVal.obj [("status", JVal.str "error"),
                       ("error", JVal.str ("Unknown intent: " ++ s))]) := by
    intro tool phrase pf s hs
    simp only [supportHandlerIntents, List.mem_cons, List.not_mem_nil, or_false, not_or] at hs
    obtain ⟨n1, n2, n3, n4, n5, n6, n7, n8, n9, n10, n11, n12⟩ := hs
    simp [handle_support_intent, jvalEqStr, pyGet, n1, n2, n3, n4, n5, n6, n7, n8, n9,
      n10, n11, n12, pyStr, Except.bind, bind, pure, Except.pure]
  refine ⟨hdata, hsupp, ?_, ?_⟩
  · intro tool mid fv tv ty pl cidv tsv s fm fc em ec ts hs
    simp [handle_a2a_data, check_message_schema, missingFields, missingAux, pyContains,
      jlookup, pyIndex, List.mapM, List.mapM.loop, hdata tool pl s hs,
      Except.bind, bind, pure, Except.pure]
  · intro tool phrase mid fv tv ty cidv tsv pf s fm fc em ec ts hs
    simp [handle_a2a_support, check_message_schema, missingFields, missingAux, pyContains,
      jlookup, pyIndex, List.mapM, List.mapM.loop, hsupp tool phrase pf s hs,
      Except.bind, bind, pure, Except.pure]

/-- C9 witness: the unknown intent `"frobnicate"` at concrete inputs, for
both handlers and for the full A2A dispatch of the data agent. -/
theorem claim_C9_unknown_intent_witness :
    handle_customer_intent (fun _ _ => JVal.null) (JVal.str "frobnicate")
        (JVal.obj [("customer_id", JVal.num 1)]) =
      .ok (JVal.obj [("status", JVal.str "error"),
        ("data", JVal.str ("Unknown intent: " ++ "frobnicate"))])
    ∧ handle_support_intent (fun _ _ => JVal.null) (fun _ _ _ => "done")
        (JVal.str "frobnicate") (JVal.obj [("customer_id", JVal.num 1)]) =
      .ok (JVal.obj [("status", JVal.str "error"),
        ("error", JVal.str ("Unknown intent: " ++ "frobnicate"))])
    ∧ handle_a2a_data (fun _ _ => JVal.null)
        (JVal.obj [("message_id", JVal.str "m0"), ("from", JVal.str "router"),
          ("to", JVal.str "customer_data_agent"), ("type", JVal.str "request"),
          ("intent", JVal.str "frobnicate"),
          ("payload", JVal.obj [("customer_id", JVal.num 1)]),
          ("correlation_id", JVal.str "c0"), ("timestamp", JVal.str "t0")])
        "m1" "c1" "em" "ec" "t1" =
      .ok (create_a2a_message (JVal.str "customer_data_agent") (JVal.str "router")
        (JVal.arr [JVal.str "frobnicate"])
        (JVal.arr [JVal.obj [("status", JVal.str "error"),
          ("data", JVal.str ("Unknown intent: " ++ "frobnicate"))]])
        (JVal.str "response") (JVal.str "c0") "m1" "c1" "t1") :=
  ⟨claim_C9_unknown_intent.1 (fun _ _ => JVal.null)
      (JVal.obj [("customer_id", JVal.num 1)]) "frobnicate" (by decide),
   claim_C9_unknown_intent.2.1 (fun _ _ => JVal.null) (fun _ _ _ => "done")
      [("customer_id", JVal.num 1)] "frobnicate" (by decide),
   claim_C9_unknown_intent.2.2.1 (fun _ _ => JVal.null) (JVal.str "m0") (JVal.str "router")
      (JVal.str "customer_data_agent") (JVal.str "request")
      (JVal.obj [("customer_id", JVal.num 1)]) (JVal.str "c0") (JVal.str "t0")
      "frobnicate" "m1" "c1" "em" "ec" "t1" (by decide)⟩

/-- If every element maps to a success, `mapM` over `Except` succeeds,
with the positionally corresponding values (proof helper). -/
theorem mapM_ok_exists {α β : Type} (f : α → Except String β) (xs : List α)
    (h : ∀ (k : Nat) (hk : k < xs.length), (f (xs.get ⟨k, hk⟩)).isOk = true) :
    ∃ ys, xs.mapM f = .ok ys ∧ ys.length = xs.length
      ∧ ∀ (k : Nat) (hk1 : k < xs.length) (hk2 : k < ys.length),
          f (xs.get ⟨k, hk1⟩) = .ok (ys.get ⟨k, hk2⟩) := by
  induction xs with
  | nil =>
    exact ⟨[], by simp [List.mapM, List.mapM.loop, pure, Except.pure], by simp,
      fun k hk1 => by simp at hk1⟩
  | cons a as ih =>
    have ha := h 0 (by simp)
    cases hfa : f a with
    | error e =>
      rw [show (a :: as).get ⟨0, by simp⟩ = a from rfl, hfa] at ha
      simp [Except.isOk, Except.toBool] at ha
    | ok b =>
      obtain ⟨ys, hys, hlen, hget⟩ := ih (fun k hk => by
        have := h (k + 1) (by simpa using Nat.succ_lt_succ hk)
        simpa using this)
      refine ⟨b :: ys, ?_, by simp [hlen], ?_⟩
      · rw [List.mapM_cons, hfa, hys]; rfl
      · intro k hk1 hk2
        cases k with
        | zero => simpa using hfa
        | succ n =>
          simpa using hget n (by simpa using hk1) (by simpa using hk2)

/-- C1: for a truthy request whose classification yields the intents
`[i1..in]`, the query endpoint returns exactly `n` result entries; the
`k`-th entry carries intent `ik` (with its escalation flag from the
static table) and is built solely from the own gather slot of the `k`-th task
(`asyncio.gather` returns results positionally, in task order,
regardless of completion order — concurrency enters the model only
through the arbitrary `responses` oracle); a task that raised gives a
`status=error` entry at its own position only.  The hypothesis `hok`
(every per-intent task constructs successfully) scopes the claim to
requests whose task construction does not itself raise. -/
theorem claim_C1_order_and_isolation
    (t : String) (cid : JVal) (intents : List String) (entities : List (String × JVal))
    (classify : JVal → List String × List (String × JVal))
    (fresh : Nat → String × String) (ts : String) (responses : List RawResult)
    (ht : t ≠ "") (hcid : cid.truthy = true)
    (hclassify : classify (JVal.str t) = (intents, entities))
    (hlen : responses.length = intents.length)
    (hok : ∀ (k : Nat) (hk : k < intents.length),
      (build_agent_task (intents.get ⟨k, hk⟩) cid (JVal.str t) entities
        (fresh k).1 (fresh k).2 ts).isOk = true) :
    ∃ results : List JVal,
      query_endpoint (JVal.obj [("text", JVal.str t), ("customer_id", cid)])
          classify fresh ts responses =
        .ok (JVal.obj [("status", JVal.str "ok"), ("results", JVal.arr results)])
      ∧ results.length = intents.length
      ∧ (∀ (k : Nat), k < intents.length →
          results.getD k JVal.null =
            make_result_entry (intents.getD k "")
              (decide (intents.getD k "" ∈ escalationIntents))
              (responses.getD k (.exn "")))
      ∧ (∀ (k : Nat), k < intents.length → ∀ (m : String),
          responses.getD k (.exn "") = .exn m →
          envField (results.getD k JVal.null) ("status") = some (JVal.str "error")) := by
  have htr : (JVal.str t).truthy = true := by simp [JVal.truthy, ht]
  have hpos : ∀ (k : Nat) (hk : k < intents.enum.length),
      ((fun p => build_agent_task p.2 cid (JVal.str t) entities
        (fresh p.1).1 (fresh p.1).2 ts) (intents.enum.get ⟨k, hk⟩)).isOk = true := by
    intro k hk
    have hk' : k < intents.length := by simpa using hk
    have he : intents.enum.get ⟨k, hk⟩ = (k, intents.get ⟨k, hk'⟩) := by
      simp [List.get_eq_getElem, List.getElem_enum]
    rw [he]
    exact hok k hk'
  obtain ⟨tasks, htasks, htlen, htget⟩ := mapM_ok_exists
    (fun p => build_agent_task p.2 cid (JVal.str t) entities
      (fresh p.1).1 (fresh p.1).2 ts) intents.enum hpos
  have htlen' : tasks.length = intents.length := by simpa using htlen
  refine ⟨((tasks.map (fun tk => (tk.intent_name, tk.requires_escalation))).zip responses).map
    (fun p => make_result_entry p.1.1 p.1.2 p.2), ?_, ?_, ?_, ?_⟩
  · have htasks' := htasks
    simp only [List.mapM] at htasks'
    simp [query_endpoint, pyGet, jlookup, htr, hcid, hclassify, htasks',
      Except.bind, bind, pure, Except.pure]
  · rw [List.length_map, List.length_zip, List.length_map, htlen', hlen]; omega
  · intro k hk
    have hkr : k < responses.length := by omega
    have hkt : k < tasks.length := by omega
    have hkm : k < (((tasks.map (fun tk => (tk.intent_name, tk.requires_escalation))).zip
        responses).map (fun p => make_result_entry p.1.1 p.1.2 p.2)).length := by
      simp [List.length_zip, htlen', hlen]; omega
    rw [List.getD_eq_getElem _ _ hkm, List.getD_eq_getElem _ _ hk,
        List.getD_eq_getElem _ _ hkr]
    have hb := htget k (by simpa using hk) (by omega)
    have he : intents.enum.get ⟨k, by simpa using hk⟩ = (k, intents.get ⟨k, hk⟩) := by
      simp [List.get_eq_getElem, List.getElem_enum]
    rw [he] at hb
    obtain ⟨h1, h2, _, _⟩ := build_agent_task_full_spec _ _ _ _ _ _ _ _ hb
    simp only [List.get_eq_getElem] at h1 h2
    simp [h1, h2]
  · intro k hk m hm
    have hkr : k < responses.length := by omega
    have hkm : k < (((tasks.map (fun tk => (tk.intent_name, tk.requires_escalation))).zip
        responses).map (fun p => make_result_entry p.1.1 p.1.2 p.2)).length := by
      simp [List.length_zip, htlen', hlen]; omega
    rw [List.getD_eq_getElem _ _ hkr] at hm
    rw [List.getD_eq_getElem _ _ hkm]
    simp [hm, make_result_entry, unwrap_result, envField, jlookup]

/-- C1 witness: the two-intent scenario of the spec
(`update_email` then `get_customer_history`) where the first dispatched
task raises and the second returns a normal envelope: the request still
succeeds with two entries in classification order — an error entry for
`update_email` only, and an `ok` entry for `get_customer_history`. -/
theorem claim_C1_order_and_isolation_witness :
    query_endpoint (JVal.obj [("text",
        JVal.str "Update my email to new@email.com and show my ticket history"),
        ("customer_id", JVal.num 1)])
      (fun _ => (["update_email", "get_customer_history"],
        [("email", JVal.str "new@email.com")]))
      (fun _ => ("m", "c")) "t"
      [RawResult.exn "Connection refused",
       RawResult.val (JVal.obj [("payload", JVal.arr [JVal.obj [("status", JVal.str "ok")]])])] =
    .ok (JVal.obj [("status", JVal.str "ok"), ("results", JVal.arr [
      JVal.obj [("intent", JVal.str "update_email"), ("status", JVal.str "error"),
        ("data", JVal.str "Connection refused"), ("requires_escalation", JVal.bool true)],
      JVal.obj [("intent", JVal.str "get_customer_history"), ("status", JVal.str "ok"),
        ("data", JVal.obj [("status", JVal.str "ok")]),
        ("requires_escalation", JVal.bool false)]])]) := by
  obtain ⟨results, h1, h2, h3, _⟩ := claim_C1_order_and_isolation
    "Update my email to new@email.com and show my ticket history" (JVal.num 1)
    ["update_email", "get_customer_history"] [("email", JVal.str "new@email.com")]
    (fun _ => (["update_email", "get_customer_history"], [("email", JVal.str "new@email.com")]))
    (fun _ => ("m", "c")) "t"
    [RawResult.exn "Connection refused",
     RawResult.val (JVal.obj [("payload", JVal.arr [JVal.obj [("status", JVal.str "ok")]])])]
    (by decide) (by rfl) (by rfl) (by rfl) (by decide)
  rcases results with _ | ⟨a, _ | ⟨b, _ | ⟨c, rest⟩⟩⟩
  · simp at h2
  · simp at h2
  · have ha := h3 0 (by decide)
    have hb := h3 1 (by decide)
    simp [List.getD] at ha hb
    rw [h1, ha, hb]
    rfl
  · simp at h2
